import Mathlib

/-!
Verification development for the chip8emu repository (src/chip8emu.cpp,
most complete iteration).  The C++ core is shallowly embedded: machine
integers are natural numbers reduced modulo 2^8 or 2^16 exactly where the
C++ types u8 and u16 perform a conversion, the byte arrays are functions
from addresses to bytes, and operations whose C++ behavior is undefined
(out-of-bounds std::array indexing, back() on an empty vector) return
none.
-/

namespace Chip8Emu

/-- Memory<u8, 4096>: the 4K byte store, std::array<u8, 4096>, zero
    initialized by the constructor.  Only indices 0..4095 denote array
    cells. -/
structure Memory where
  data : Nat → Nat

/-- Source: u8 RB(u16 addr) returns memory[addr].  The raw 16-bit address
    indexes the 4096-element array with no reduction; an address at or
    above 4096 is an out-of-bounds access, undefined behavior in C++,
    modeled as none.  The read value is a u8. -/
def Memory.RB (m : Memory) (addr : Nat) : Option Nat :=
  if addr < 4096 then some (m.data addr % 256) else none

/-- Source: void WB(u16 addr, const u8 and value) assigns memory[addr] =
    value.  Same raw indexing as RB; the stored value is the u8
    conversion of the argument. -/
def Memory.WB (m : Memory) (addr : Nat) (value : Nat) : Option Memory :=
  if addr < 4096 then
    some ⟨fun a => if a = addr then value % 256 else m.data a⟩
  else none

/-- The display framebuffer: std::array<u8, 256> screenPixels, 32 rows of
    8 bytes, 8 horizontal pixels per byte. -/
structure Display where
  screenPixels : Nat → Nat

/-- Store a u8 into a byte-array-as-function at index k. -/
def upd (f : Nat → Nat) (k v : Nat) : Nat → Nat :=
  fun a => if a = k then v % 256 else f a

/-- The aligned branch loop of Display::predrawSurf (xOffset equal to 0):
    for i below nBytes the source ASSIGNS screenPixels[xOffset + yAdj*8] =
    RAM.RB(addr + i) with yAdj = (y + i) mod 32; an assignment, not an
    XOR.  Recursion counts the remaining iterations. -/
def alignedLoop (m : Memory) (addr y xOffset : Nat) (px : Nat → Nat) :
    Nat → Nat → Option (Nat → Nat)
  | 0, _ => some px
  | cnt + 1, idx => do
      let b ← m.RB (addr + idx)
      let yAdj := (y + idx) % 32
      alignedLoop m addr y xOffset (upd px (xOffset + yAdj * 8) b) cnt (idx + 1)

/-- The branch of Display::predrawSurf for x at least 56: per sprite byte,
    XOR the top part into byte 7 of the row and the bottom part into byte
    0 of the row. -/
def offEdgeLoop (m : Memory) (addr y xOffset maskT maskB : Nat) (px : Nat → Nat) :
    Nat → Nat → Option (Nat → Nat)
  | 0, _ => some px
  | cnt + 1, idx => do
      let nextByte ← m.RB (addr + idx)
      let yAdj := (y + idx) % 32
      let px1 := upd px (7 + yAdj * 8)
        (((nextByte >>> xOffset) &&& maskT) ^^^ px (7 + yAdj * 8))
      let px2 := upd px1 (yAdj * 8)
        (((nextByte <<< (8 - xOffset)) &&& maskB) ^^^ px1 (yAdj * 8))
      offEdgeLoop m addr y xOffset maskT maskB px2 cnt (idx + 1)

/-- The general unaligned branch of Display::predrawSurf.  Mirrors the
    source exactly: the second statement XORs against screenPixels[yAdj*8]
    (byte 0 of the row), not against the byte being written. -/
def splitLoop (m : Memory) (addr y x xOffset maskT maskB : Nat) (px : Nat → Nat) :
    Nat → Nat → Option (Nat → Nat)
  | 0, _ => some px
  | cnt + 1, idx => do
      let nextByte ← m.RB (addr + idx)
      let yAdj := (y + idx) % 32
      let k1 := x / 8 + yAdj * 8
      let px1 := upd px k1 (((nextByte >>> xOffset) &&& maskT) ^^^ px k1)
      let px2 := upd px1 (x / 8 + 1 + yAdj * 8)
        (((nextByte <<< (8 - xOffset)) &&& maskB) ^^^ px1 (yAdj * 8))
      splitLoop m addr y x xOffset maskT maskB px2 cnt (idx + 1)

/-- Display::predrawSurf(const u8 addr, Memory RAM, const u8 nBytes,
    const u8 x, const u8 y).  The local variable collision is initialized
    to 0, never assigned again in any branch, and returned; maskT is
    (1 << xOffset) - 1 and maskB its u8 complement, written here as
    255 - maskT. -/
def Display.predrawSurf (d : Display) (addr : Nat) (RAM : Memory)
    (nBytes x y : Nat) : Option (Display × Nat) := do
  let collision := 0
  let xOffset := x % 8
  if xOffset = 0 then
    let px ← alignedLoop RAM addr y xOffset d.screenPixels nBytes 0
    return (⟨px⟩, collision)
  else
    let maskT := (1 <<< xOffset) - 1
    let maskB := 255 - maskT
    if x ≥ 7 * 8 then
      let px ← offEdgeLoop RAM addr y xOffset maskT maskB d.screenPixels nBytes 0
      return (⟨px⟩, collision)
    else
      let px ← splitLoop RAM addr y x xOffset maskT maskB d.screenPixels nBytes 0
      return (⟨px⟩, collision)

/-- The processor state of struct Chip8.  regs is std::array<u8, 16>, io
    the 16 keypad flags, dt and st the timers, i the 16-bit index
    register, pc the 16-bit program counter, stack the vector of return
    addresses with its back element at the list head. -/
structure Chip8 where
  regs : List Nat
  io : List Bool
  dt : Nat
  st : Nat
  i : Nat
  pc : Nat
  stack : List Nat
  disp : Display
  ram : Memory

/-- Read regs[n]: for the nibble-derived indices n below 16 that exe uses,
    the C++ access is in bounds; the default 0 is never reached on a well
    formed 16-entry register file. -/
def regGet (regs : List Nat) (n : Nat) : Nat := regs.getD n 0

/-- Write regs[n] = v: the u8 conversion stores v mod 256. -/
def regSet (regs : List Nat) (n v : Nat) : List Nat := regs.set n (v % 256)

/-- Chip8::keyIsPressed(u8 key): returns io[key]; the keypad array has 16
    entries, a key index past the end is an out-of-bounds read (none). -/
def keyIsPressed (io : List Bool) (key : Nat) : Option Bool := io.get? key

/-- The busy-wait loop of Chip8::getPressedKey.  key starts at 0; while
    io[key] is false the body increments key when key < 16 and otherwise
    resets it to 0 (after polling host events, which is external I/O and
    cannot change io when no event is pending).  The loop condition reads
    io[key] first, so after 16 misses key is 16 and the read io[16] goes
    one past the 16-entry array: an out-of-bounds access, modeled none.
    Fuel bounds recursion; fuel 17 reaches every behavior possible before
    the loop either returns or performs the out-of-bounds read. -/
def getPressedKeyLoop (io : List Bool) : Nat → Nat → Option Nat
  | 0, _ => none
  | fuel + 1, key =>
      match io.get? key with
      | none => none
      | some true => some key
      | some false =>
          if key < 16 then getPressedKeyLoop io fuel (key + 1)
          else getPressedKeyLoop io fuel 0

/-- Chip8::getPressedKey() with no pending host events. -/
def getPressedKey (io : List Bool) : Option Nat := getPressedKeyLoop io 17 0

/-- The list of indices at which the getPressedKey loop condition reads
    the io array, in order, same control flow as getPressedKeyLoop: the
    trace stops when a pressed key is found or when a read goes out of
    bounds. -/
def gpkAccessed (io : List Bool) : Nat → Nat → List Nat
  | 0, _ => []
  | fuel + 1, key =>
      key :: (match io.get? key with
      | none => []
      | some true => []
      | some false =>
          if key < 16 then gpkAccessed io fuel (key + 1)
          else gpkAccessed io fuel 0)

/-- The Fx55 loop: for (int j = 0; j < regs[n1]; ++j) RAM.WB(i + j,
    regs[j]).  The bound is the VALUE of register n1 and the comparison is
    strict; regs[j] for j at or past 16 is an out-of-bounds read. -/
def fx55Loop (regs : List Nat) (i0 : Nat) (bound : Nat) (m : Memory) :
    Option Memory :=
  (List.range bound).foldlM (fun mem j => do
      let v ← regs.get? j
      mem.WB ((i0 + j) % 65536) v) m

/-- The Fx65 loop: for (int j = 0; j < regs[n1]; ++j) regs[j] =
    RAM.RB(i + j).  A write to regs[j] for j at or past the 16-entry
    array is out of bounds. -/
def fx65Loop (ram : Memory) (i0 : Nat) (bound : Nat) (regs : List Nat) :
    Option (List Nat) :=
  (List.range bound).foldlM (fun rs j => do
      let v ← ram.RB ((i0 + j) % 65536)
      if j < rs.length then some (rs.set j (v % 256)) else none) regs

/-- Chip8::exe(u16 opcode): decode the four nibbles and dispatch, a direct
    transcription of the switch.  rnd stands for the value rand() returned
    for the one opcode class that calls it.  Out-of-bounds array accesses
    and back() on an empty vector are undefined behavior, hence none. -/
def exe (s : Chip8) (opcode rnd : Nat) : Option Chip8 :=
  let n0 := (0xF000 &&& opcode) >>> 12
  let n1 := (0x0F00 &&& opcode) >>> 8
  let n2 := (0x00F0 &&& opcode) >>> 4
  let n3 := 0x000F &&& opcode
  match n0 with
  | 0x0 =>
      match n3 with
      | 0x0 => some { s with disp := ⟨fun _ => 0⟩ }
      | 0xe =>
          match s.stack with
          | [] => none
          | a :: rest => some { s with pc := a, stack := rest }
      | _ => some s
  | 0x1 => some { s with pc := opcode &&& 0x0fff }
  | 0x2 => some { s with stack := s.pc :: s.stack, pc := opcode &&& 0x0fff }
  | 0x3 => some (if regGet s.regs n1 = (opcode &&& 0x00ff) then
      { s with pc := (s.pc + 2) % 65536 } else s)
  | 0x4 => some (if regGet s.regs n1 ≠ (opcode &&& 0x00ff) then
      { s with pc := (s.pc + 2) % 65536 } else s)
  | 0x5 => some (if regGet s.regs n1 = regGet s.regs n2 then
      { s with pc := (s.pc + 2) % 65536 } else s)
  | 0x6 => some { s with regs := regSet s.regs n1 (opcode &&& 0x00ff) }
  | 0x7 => some { s with regs := regSet s.regs n1 (regGet s.regs n1 + (opcode &&& 0x00ff)) }
  | 0x8 =>
      match n3 with
      | 0x0 => some { s with regs := regSet s.regs n1 (regGet s.regs n2) }
      | 0x1 => some { s with regs := regSet s.regs n1 (regGet s.regs n1 ||| regGet s.regs n2) }
      | 0x2 => some { s with regs := regSet s.regs n1 (regGet s.regs n1 &&& regGet s.regs n2) }
      | 0x3 => some { s with regs := regSet s.regs n1 (regGet s.regs n1 ^^^ regGet s.regs n2) }
      | 0x4 =>
          -- regs[n1] += regs[n2]; then the carry test reads the UPDATED array
          let r1 := regSet s.regs n1 (regGet s.regs n1 + regGet s.regs n2)
          let r2 := regSet r1 0xf (if regGet r1 n1 < regGet r1 n2 then 1 else 0)
          some { s with regs := r2 }
      | 0x5 =>
          -- flag first, then regs[n1] -= regs[n2] on the flag-updated array;
          -- u8 subtraction is two-complement, written (a + 256 - b) mod 256
          let r1 := regSet s.regs 0xf (if regGet s.regs n1 > regGet s.regs n2 then 1 else 0)
          let r2 := regSet r1 n1 (regGet r1 n1 + 256 - regGet r1 n2)
          some { s with regs := r2 }
      | 0x6 =>
          let r1 := regSet s.regs 0xf (if regGet s.regs n1 &&& 0x1 ≠ 0 then 1 else 0)
          let r2 := regSet r1 n1 (regGet r1 n1 >>> 1)
          some { s with regs := r2 }
      | 0x7 =>
          let r1 := regSet s.regs 0xf (if regGet s.regs n2 > regGet s.regs n1 then 1 else 0)
          let r2 := regSet r1 n1 (regGet r1 n2 + 256 - regGet r1 n1)
          some { s with regs := r2 }
      | 0xe =>
          -- the source tests regs[n1] & 0x8000 on a u8 value
          let r1 := regSet s.regs 0xf (if regGet s.regs n1 &&& 0x8000 ≠ 0 then 1 else 0)
          let r2 := regSet r1 n1 (regGet r1 n1 <<< 1)
          some { s with regs := r2 }
      | _ => some s
  | 0x9 => some (if regGet s.regs n1 ≠ regGet s.regs n2 then
      { s with pc := (s.pc + 2) % 65536 } else s)
  | 0xa => some { s with i := opcode &&& 0x0fff }
  | 0xb => some { s with pc := (regGet s.regs 0x0 + (opcode &&& 0x0fff)) % 65536 }
  | 0xc => some { s with regs := regSet s.regs n1 ((rnd % 256) &&& (opcode &&& 0x00ff)) }
  | 0xd => do
      -- disp.predrawSurf(i, RAM, n3, regs[n1], regs[n2]): the u8 parameter
      -- truncates i, and the returned collision value is DISCARDED; the
      -- following disp.draw() only renders and touches no modeled state
      let r ← s.disp.predrawSurf (s.i % 256) s.ram n3 (regGet s.regs n1) (regGet s.regs n2)
      some { s with disp := r.1 }
  | 0xe =>
      match n2 with
      | 0x9 => do
          let p ← keyIsPressed s.io (regGet s.regs n1)
          some (if p then { s with pc := (s.pc + 2) % 65536 } else s)
      | 0xa => do
          let p ← keyIsPressed s.io (regGet s.regs n1)
          some (if p then s else { s with pc := (s.pc + 2) % 65536 })
      | _ => some s
  | 0xf =>
      match (n2 <<< 4) ||| n3 with
      | 0x07 => some { s with regs := regSet s.regs n1 s.dt }
      | 0x0a => do
          let k ← getPressedKey s.io
          some { s with regs := regSet s.regs n1 k }
      | 0x15 => some { s with dt := regGet s.regs n1 }
      | 0x18 => some { s with st := regGet s.regs n1 }
      | 0x1e => some { s with i := s.i &&& regGet s.regs n1 }
      | 0x29 => some { s with i := regGet s.regs n1 }
      | 0x33 => do
          let m1 ← s.ram.WB s.i (regGet s.regs n1 / 100 % 10)
          let m2 ← m1.WB ((s.i + 1) % 65536) (regGet s.regs n1 / 10 % 10)
          let m3 ← m2.WB ((s.i + 2) % 65536) (regGet s.regs n1 % 10)
          some { s with ram := m3 }
      | 0x55 => do
          let mem ← fx55Loop s.regs s.i (regGet s.regs n1) s.ram
          some { s with ram := mem }
      | 0x65 => do
          let rs ← fx65Loop s.ram s.i (regGet s.regs n1) s.regs
          some { s with regs := rs }
      | _ => some s
  | _ => some s

/-- The deterministic state change of Chip8::tick: each call decrements
    each timer that is positive; the SDL delay pacing is external
    wall-clock I/O with no modeled state. -/
def tick (s : Chip8) : Chip8 :=
  { s with dt := if s.dt > 0 then s.dt - 1 else s.dt,
           st := if s.st > 0 then s.st - 1 else s.st }

/-- The execute-and-advance portion of Chip8::op for one already fetched
    opcode: exe(opcode) followed by the UNCONDITIONAL pc += 2 that the
    source performs after every instruction, jumps included. -/
def execStep (s : Chip8) (opcode rnd : Nat) : Option Chip8 :=
  (exe s opcode rnd).map (fun c => { c with pc := (c.pc + 2) % 65536 })

/-- Chip8::op(): fetch the big-endian opcode from RAM at pc and pc + 1,
    poll host input (modeled with no pending events), execute, add 2 to
    pc, tick. -/
def Chip8.op (s : Chip8) (rnd : Nat) : Option Chip8 := do
  let hi ← s.ram.RB s.pc
  let lo ← s.ram.RB ((s.pc + 1) % 65536)
  let s1 ← execStep s ((hi <<< 8) ||| lo) rnd
  some (tick s1)

/-- The sixteen packed glyph words that Chip8::loadFont iterates over. -/
def fontData : List Nat :=
  [0xf999f, 0x26227, 0xf1f8f, 0xf1f1f,
   0x99f11, 0xf8f1f, 0xf8f9f, 0xf1244,
   0xf9f9f, 0xf9f1f, 0xf9f99, 0xe9e9e,
   0xf888f, 0xe999e, 0xf8f8f, 0xf8f88]

/-- The five bytes loadFont writes for one glyph word n: the inner loop
    runs i = 4, 3, 2, 1 writing (n >> ((i - 1) * 4)) & 0xf0, then one
    further write of (n << 4) & 0xf0. -/
def glyphBytes (n : Nat) : List Nat :=
  [(n >>> 12) &&& 0xf0, (n >>> 8) &&& 0xf0, (n >>> 4) &&& 0xf0,
   (n >>> 0) &&& 0xf0, (n <<< 4) &&& 0xf0]

/-- Sequential RAM.WB writes at consecutive addresses; fontp has type u8
    in the source, hence the mod 256 on the address. -/
def writeSeq (m : Memory) (fontp : Nat) : List Nat → Option Memory
  | [] => some m
  | v :: rest => do
      let m1 ← m.WB (fontp % 256) v
      writeSeq m1 (fontp + 1) rest

/-- Chip8::loadFont(): 80 writes starting at address 0. -/
def loadFont (m : Memory) : Option Memory :=
  writeSeq m 0 (fontData.map glyphBytes).flatten

/-- The state the Chip8 constructor builds: value-initialized registers,
    keypad, timers, index register, stack, framebuffer and RAM, pc at
    0x200, then loadFont(). -/
def initChip8 : Option Chip8 := do
  let m ← loadFont ⟨fun _ => 0⟩
  some { regs := List.replicate 16 0, io := List.replicate 16 false,
         dt := 0, st := 0, i := 0, pc := 0x200, stack := [],
         disp := ⟨fun _ => 0⟩, ram := m }

/-- The sixteen five-byte hexadecimal-digit sprites, digits 0 through F,
    five bytes per digit, each row one byte with the pixel pattern in the
    high nibble. -/
def standardFont : List Nat :=
  [0xF0, 0x90, 0x90, 0x90, 0xF0,
   0x20, 0x60, 0x20, 0x20, 0x70,
   0xF0, 0x10, 0xF0, 0x80, 0xF0,
   0xF0, 0x10, 0xF0, 0x10, 0xF0,
   0x90, 0x90, 0xF0, 0x10, 0x10,
   0xF0, 0x80, 0xF0, 0x10, 0xF0,
   0xF0, 0x80, 0xF0, 0x90, 0xF0,
   0xF0, 0x10, 0x20, 0x40, 0x40,
   0xF0, 0x90, 0xF0, 0x90, 0xF0,
   0xF0, 0x90, 0xF0, 0x10, 0xF0,
   0xF0, 0x90, 0xF0, 0x90, 0x90,
   0xE0, 0x90, 0xE0, 0x90, 0xE0,
   0xF0, 0x80, 0x80, 0x80, 0xF0,
   0xE0, 0x90, 0x90, 0x90, 0xE0,
   0xF0, 0x80, 0xF0, 0x80, 0xF0,
   0xF0, 0x80, 0xF0, 0x80, 0x80]

/-- A quiescent machine state: cleared registers, keypad, timers, stack,
    framebuffer and RAM, pc at the load address. -/
def zeroState : Chip8 :=
  { regs := List.replicate 16 0, io := List.replicate 16 false,
    dt := 0, st := 0, i := 0, pc := 0x200, stack := [],
    disp := ⟨fun _ => 0⟩, ram := ⟨fun _ => 0⟩ }

/-- State for the jump test: RAM holds the instruction 0x1234 at the
    reset pc 0x200. -/
def c1State : Chip8 :=
  { zeroState with
    ram := ⟨fun a => if a = 0x200 then 0x12 else if a = 0x201 then 0x34 else 0⟩ }

/-- State for the collision test: framebuffer byte 0 fully lit, RAM all
    zero, so drawing the one-byte sprite 0x00 at the origin unsets eight
    previously lit pixels. -/
def c2State : Chip8 :=
  { zeroState with disp := ⟨fun a => if a = 0 then 0xFF else 0⟩ }

/-- State for the double-draw test: framebuffer byte 0 holds 0x0F and the
    sprite byte at RAM address 0 is 0xFF. -/
def c5State : Chip8 :=
  { zeroState with
    disp := ⟨fun a => if a = 0 then 0x0F else 0⟩,
    ram := ⟨fun a => if a = 0 then 0xFF else 0⟩ }

/-- State with V0 = 200, all other registers 0. -/
def c4State : Chip8 := { zeroState with regs := 200 :: List.replicate 15 0 }

/-- State with V0 = 2 and index register 1. -/
def c6State : Chip8 := { zeroState with regs := 2 :: List.replicate 15 0, i := 1 }

/-- State with V0 = 5, V1 = 0 and index register 100. -/
def c7State : Chip8 := { zeroState with regs := 5 :: List.replicate 15 0, i := 100 }

/-- The shape of exe on a call opcode (top nibble 2): push pc, set pc to
    the low 12 bits of the opcode. -/
theorem exe_call_shape (s : Chip8) (opcode : Nat)
    (htop : (0xF000 &&& opcode) >>> 12 = 0x2) :
    exe s opcode 0 = some { s with stack := s.pc :: s.stack, pc := opcode &&& 0x0fff } := by
  simp only [exe]
  rw [htop]

/-- The shape of exe on the return opcode 0x00EE with a nonempty stack:
    pop the back of the stack into pc. -/
theorem exe_ret_shape (s : Chip8) (a : Nat) (rest : List Nat)
    (h : s.stack = a :: rest) :
    exe s 0x00EE 0 = some { s with pc := a, stack := rest } := by
  simp only [exe]
  rw [h]

/-- C1: the claim states that after one step a jump, call, return or
    JP V0 instruction leaves pc exactly at the target it set, the generic
    post-execution advance being suppressed.  The code fails this: op()
    adds 2 to pc unconditionally after exe(), so the jump 0x1234 fetched
    at pc 0x200 leaves pc at 0x236, not at the target 0x234. -/
theorem c1_jump_pc_overshoot :
    (Chip8.op c1State 0).map Chip8.pc = some 0x236 ∧ (0x236 : Nat) ≠ 0x234 := by
  constructor
  · decide
  · decide

/-- C2: the claim states that Dxyn sets VF to 1 exactly when a previously
    set pixel is unset.  The code fails this: predrawSurf never assigns
    its collision variable and exe discards the returned value, so here a
    draw that turns the fully lit framebuffer byte 0 into 0x00 (unsetting
    eight previously lit pixels) leaves VF at 0 and no register is ever
    written by the draw. -/
theorem c2_dxyn_never_sets_vf :
    (exe c2State 0xD011 0).map (fun c => (regGet c.regs 0xf, c.disp.screenPixels 0))
      = some (0, 0)
    ∧ c2State.disp.screenPixels 0 = 0xFF := by
  constructor
  · decide
  · decide

/-- C3: the claim states that Memory reads and writes reduce the address
    modulo 4096 so that out-of-range addresses silently wrap.  The code
    fails this: RB and WB index the 4096-element array with the raw
    address, so address 4096 is an out-of-bounds access (undefined
    behavior, modeled none) instead of a wrap to address 0, while an
    in-range address reads exactly the addressed byte. -/
theorem c3_memory_no_modulo_wrap :
    Memory.RB ⟨fun _ => 7⟩ 4096 = none
    ∧ Memory.RB ⟨fun _ => 7⟩ 0 = some 7
    ∧ (Memory.WB ⟨fun _ => 7⟩ 4096 5).isNone = true := by
  refine ⟨?_, ?_, ?_⟩ <;> decide

/-- C4: the claim states that 8xy4 sets Vx to the sum modulo 256 and VF
    to the carry of the true sum, including when x equals y.  The code
    fails this for x = y: it tests regs[n1] < regs[n2] after the update,
    comparing the register with itself, so with V0 = 200 the opcode
    0x8004 yields V0 = 144 but VF = 0 although 200 + 200 exceeds 255. -/
theorem c4_add_carry_lost_when_x_eq_y :
    (exe c4State 0x8004 0).map (fun c => (regGet c.regs 0, regGet c.regs 0xf))
      = some (144, 0)
    ∧ 200 + 200 > 255 := by
  constructor
  · decide
  · decide

/-- C5: the claim states that drawing the same sprite twice at the same
    spot restores the framebuffer and reports a collision the second
    time.  The code fails this: the aligned branch of predrawSurf assigns
    the sprite byte instead of XORing it, so two draws of the byte 0xFF
    at the origin leave framebuffer byte 0 at 0xFF rather than restoring
    the initial 0x0F, and the reported collision value is always 0. -/
theorem c5_double_draw_not_restored :
    ((exe c5State 0xD011 0).bind (fun c => exe c 0xD011 0)).map
        (fun c => (c.disp.screenPixels 0, regGet c.regs 0xf)) = some (0xFF, 0)
    ∧ c5State.disp.screenPixels 0 = 0x0F ∧ (0xFF : Nat) ≠ 0x0F := by
  refine ⟨?_, ?_, ?_⟩ <;> decide

/-- C6: the claim states that Fx1E adds Vx to the index register.  The
    code fails this: the handler computes a bitwise AND, so with I = 1
    and V0 = 2 the opcode 0xF01E leaves I = 0 instead of 3. -/
theorem c6_fx1e_bitand_not_add :
    (exe c6State 0xF01E 0).map Chip8.i = some 0 ∧ (0 : Nat) ≠ 1 + 2 := by
  constructor
  · decide
  · decide

/-- C7: the claim states that Fx55 stores V0 through Vx inclusive at I
    through I + x, the bound being the opcode nibble x.  The code fails
    this: the loop runs j from 0 while j is strictly below the VALUE of
    register x, so the opcode 0xF155 with V1 = 0 writes nothing, leaving
    memory at I = 100 equal to 0 although V0 = 5 should have been
    stored there. -/
theorem c7_fx55_wrong_loop_bound :
    (exe c7State 0xF155 0).map (fun c => (c.ram.data 100, c.ram.data 101))
      = some (0, 0)
    ∧ regGet c7State.regs 0 = 5 := by
  constructor
  · decide
  · decide

/-- C8: after the constructor runs (and before any instruction executes)
    memory addresses 0 through 79 hold the sixteen five-byte
    hexadecimal-digit glyph sprites in digit order 0 through F. -/
theorem c8_font_loaded :
    initChip8.map (fun c => (List.range 80).map c.ram.data) = some standardFont := by
  decide

/-- C9: for every machine state (any pc, any stack) a call instruction
    (top nibble 2) followed immediately by the return 0x00EE leaves pc at
    the address of the instruction after the call, pc + 2 as a 16-bit
    value, with the stack restored to its pre-call state. -/
theorem c9_call_ret_roundtrip (s : Chip8) (opcode : Nat)
    (htop : (0xF000 &&& opcode) >>> 12 = 0x2) :
    ((execStep s opcode 0).bind (fun c => execStep c 0x00EE 0)).map
      (fun c => (c.pc, c.stack)) = some ((s.pc + 2) % 65536, s.stack) := by
  have h1 := exe_call_shape s opcode htop
  simp only [execStep, h1]
  simp only [Option.map_some', Option.some_bind]
  rw [exe_ret_shape _ s.pc s.stack rfl]
  simp

/-- Witness for C9: the round trip at pc 0x500 with stack [7] and the
    call 0x2300 ends at pc 0x502 with stack [7]. -/
theorem c9_call_ret_roundtrip_witness :
    ((execStep { zeroState with pc := 0x500, stack := [7] } 0x2300 0).bind
      (fun c => execStep c 0x00EE 0)).map (fun c => (c.pc, c.stack))
      = some (0x502, [7]) := by
  have h := c9_call_ret_roundtrip { zeroState with pc := 0x500, stack := [7] }
    0x2300 (by decide)
  simpa using h

/-- C10: the claim states that the key-wait scan with no key pressed only
    reads keypad indices 0 through 15.  The code fails this: after the
    sixteen indices 0 through 15 all read false, the loop increments key
    to 16 and the next loop-condition evaluation reads io[16], one entry
    past the 16-entry array. -/
theorem c10_keypad_scan_reads_index_16 :
    16 ∈ gpkAccessed (List.replicate 16 false) 17 0
    ∧ (List.replicate 16 false).length = 16 := by
  constructor
  · decide
  · decide

end Chip8Emu
